import Mathlib

/-!
Verification of the lexer (`src/program/lexer.cpp`) and recursive-descent
parser of the Indseta/interpreter front end, as a shallow embedding.

Conventions of the embedding:
* C++ `std::string` source text is a `List Char`; `std::isalpha` / `std::isdigit`
  / `std::isspace` are restricted to their ASCII behaviour (all inputs of
  interest are ASCII).
* `std::string::operator[]` at index `size()` returns the null character
  (defined behaviour since C++11); unchecked reads in the lexer's float
  lookahead are therefore modelled by `charAt`, which yields `'\x00'` past the
  end.  (A read strictly past `size()` would be undefined behaviour; in every
  defined trace relevant here such a read is short-circuited away.)
* `std::vector::operator[]` out of range is undefined behaviour; the parser
  embedding makes any such access an explicit `PErr.oob` outcome.
* Loops and the mutually recursive parse functions are given an explicit fuel
  argument so that every definition is structurally recursive and computable
  by kernel reduction; exhausting fuel is the distinct outcome
  `PErr.outOfFuel` (never reached at the fuel values used in the theorems).
-/

namespace Lexer

/-- Token categories, from `Lexer::TokenCategory`. -/
inductive Category where
  | PUNCTUATOR
  | KEYWORD
  | IDENTIFIER
  | OPERATOR
  | INTEGER_LITERAL
  | FLOAT_LITERAL
  | BOOLEAN_LITERAL
  | STRING_LITERAL
  | LINE_COMMENT
  | BLOCK_COMMENT
  | UNKNOWN
deriving DecidableEq, Repr

/-- `Lexer::Token`: a category together with the matched text. -/
structure Token where
  category : Category
  value : String
deriving DecidableEq, Repr

/-- `Lexer::keywords`. -/
def keywords : List String :=
  ["let", "var", "const", "function", "return", "true", "false",
   "if", "else", "for", "while", "break", "continue"]

/-- `Lexer::operators`. -/
def operators : List String :=
  ["=", "!", "+", "-", "*", "/", "%",
   "+=", "-=", "*=", "/=", "%=", "==", "!=", "<", "<=", ">", ">="]

/-- `Lexer::punctuators`. -/
def punctuators : List String :=
  [";", ".", ",", "(", ")", "\x7b", "\x7d", "[", "]"]

/-- `Lexer::is_keyword`: linear membership scan of `keywords`. -/
def is_keyword (value : String) : Bool :=
  keywords.contains value

/-- `Lexer::is_operator`: linear membership scan of `operators`. -/
def is_operator (value : String) : Bool :=
  operators.contains value

/-- `Lexer::is_punctuator`: linear membership scan of `punctuators`. -/
def is_punctuator (value : String) : Bool :=
  punctuators.contains value

/-- ASCII `std::isspace`. -/
def isspace (c : Char) : Bool :=
  c = ' ' ∨ c = '\t' ∨ c = '\n' ∨ c = '\x0b' ∨ c = '\x0c' ∨ c = '\r'

/-- ASCII `std::isalpha`. -/
def isalpha (c : Char) : Bool :=
  ('a' ≤ c ∧ c ≤ 'z') ∨ ('A' ≤ c ∧ c ≤ 'Z')

/-- ASCII `std::isdigit`. -/
def isdigit (c : Char) : Bool :=
  '0' ≤ c ∧ c ≤ '9'

/-- `raw[j]` for `std::string`: the stored character when `j < size()` and the
null character at `j = size()` (see the header comment). -/
def charAt (raw : List Char) (j : Nat) : Char :=
  raw.getD j '\x00'

/-- The inner scanning loops of `Lexer::lex` of the form
`while (i + 1 < raw.length() && p(raw[i + 1])) ct.value += raw[++i];`:
collects the characters from position `j` on while `p` holds.  Fueled;
the fuel is instantiated so it can never run out before the bound check. -/
def scanWhileAux (raw : List Char) (p : Char → Bool) : Nat → Nat → List Char
  | 0, _ => []
  | fuel + 1, j =>
    if h : j < raw.length then
      if p raw[j] then raw[j] :: scanWhileAux raw p fuel (j + 1) else []
    else []

/-- Entry point of `scanWhileAux` with adequate fuel. -/
def scanWhile (raw : List Char) (p : Char → Bool) (j : Nat) : List Char :=
  scanWhileAux raw p (raw.length + 1) j

/-- The operator/punctuator extension loops of `Lexer::lex` of the form
`while (i + 1 < raw.length() && is_op(ct.value + raw[i + 1])) ct.value += raw[++i];`:
extends `value` greedily while the extension stays recognized; returns the
final value together with the index of the first unconsumed character. -/
def extendWhileAux (raw : List Char) (p : String → Bool) :
    Nat → List Char → Nat → List Char × Nat
  | 0, value, j => (value, j)
  | fuel + 1, value, j =>
    if h : j < raw.length then
      if p (String.mk (value ++ [raw[j]])) then
        extendWhileAux raw p fuel (value ++ [raw[j]]) (j + 1)
      else (value, j)
    else (value, j)

/-- Entry point of `extendWhileAux` with adequate fuel. -/
def extendWhile (raw : List Char) (p : String → Bool) (value : List Char)
    (j : Nat) : List Char × Nat :=
  extendWhileAux raw p (raw.length + 1) value j

/-- The main loop of `Lexer::lex`, one step per outer `for` iteration starting
at character index `i`; produces the token list or the thrown
`std::runtime_error` message.  Fueled (the index strictly increases each
iteration, so `raw.length + 1` steps always suffice). -/
def lexFrom (raw : List Char) : Nat → Nat → Except String (List Token)
  | 0, _ => .error "out of fuel"
  | fuel + 1, i =>
    if h : i < raw.length then
      let c := raw[i]
      -- Skip whitespace
      if isspace c then lexFrom raw fuel (i + 1)
      -- Keyword, identifier & boolean literal
      else if isalpha c then
        let rest := scanWhile raw (fun ch => isalpha ch || isdigit ch) (i + 1)
        let value := String.mk (c :: rest)
        let cat :=
          if value = "false" ∨ value = "true" then Category.BOOLEAN_LITERAL
          else if is_keyword value then Category.KEYWORD
          else Category.IDENTIFIER
        (lexFrom raw fuel (i + rest.length + 1)).map (⟨cat, value⟩ :: ·)
      -- Integer & float literal
      else if isdigit c then
        let ds := scanWhile raw isdigit (i + 1)
        let i1 := i + ds.length
        if charAt raw (i1 + 1) = '.' ∧ isdigit (charAt raw (i1 + 2)) then
          let ds2 := scanWhile raw isdigit (i1 + 2)
          let value := String.mk (c :: ds ++ '.' :: ds2)
          (lexFrom raw fuel (i1 + 2 + ds2.length)).map
            (⟨Category.FLOAT_LITERAL, value⟩ :: ·)
        else
          (lexFrom raw fuel (i1 + 1)).map
            (⟨Category.INTEGER_LITERAL, String.mk (c :: ds)⟩ :: ·)
      -- Operator
      else if is_operator (String.mk [c]) then
        let (value, jnext) := extendWhile raw is_operator [c] (i + 1)
        (lexFrom raw fuel jnext).map (⟨Category.OPERATOR, String.mk value⟩ :: ·)
      -- Punctuator
      else if is_punctuator (String.mk [c]) then
        let (value, jnext) := extendWhile raw is_punctuator [c] (i + 1)
        (lexFrom raw fuel jnext).map
          (⟨Category.PUNCTUATOR, String.mk value⟩ :: ·)
      -- String literal: consume up to the next '\x22' or the end of input,
      -- emit the token, then skip one more character (the closing quote
      -- position, present or not).
      else if c = '\x22' then
        let cs := scanWhile raw (fun ch => ch ≠ '\x22') (i + 1)
        (lexFrom raw fuel (i + cs.length + 2)).map
          (⟨Category.STRING_LITERAL, String.mk cs⟩ :: ·)
      -- Unknown token: `ct.value` was just reset to "", so the thrown
      -- message is the constant prefix.
      else .error "Unkown token: "
    else .ok []

/-- `Lexer::lex` on a whole source string (the constructor's single pass). -/
def lex (raw : String) : Except String (List Token) :=
  lexFrom raw.data (raw.data.length + 1) 0

end Lexer

namespace Parser

/-- `Parser::Node` and its subclasses (AST node variants), with the fields of
each C++ struct in declaration order.  `ConditionalStatement.fail` is `none`
when the `else` branch is absent (null `unique_ptr` in the source). -/
inductive Node where
  | EmptyStatement : Node
  | VariableDeclaration (op identifier : String) (value : Node) : Node
  | FunctionDeclaration (type identifier : String)
      (args_types args_ids : List String) (statement : Node) : Node
  | VariableAssignment (identifier : String) (value : Node) : Node
  | ScopeDeclaration (ast : List Node) : Node
  | ConditionalStatement (condition pass : Node) (fail : Option Node) : Node
  | WhileLoopStatement (condition statement : Node) : Node
  | ReturnStatement (expr : Node) : Node
  | FunctionCall (identifier : String) (args : List Node) : Node
  | VariableCall (identifier : String) : Node
  | BinaryOperation (left : Node) (op : String) (right : Node) : Node
  | UnaryOperation (op : String) (right : Node) : Node
  | CastOperation (expr : Node) (type : String) : Node
  | IntegerLiteral (value : String) : Node
  | FloatLiteral (value : String) : Node
  | BooleanLiteral (value : Bool) : Node
  | StringLiteral (value : String) : Node

/-- The parser's mutable cursor and success flag (`Parser::current`,
`Parser::success`); the token vector itself is immutable and passed
separately. -/
structure PState where
  current : Nat
  success : Bool
deriving DecidableEq, Repr

/-- How a parsing computation can abort: `oob` models an out-of-bounds
`tokens[...]` access (undefined behaviour in the C++, made explicit here);
`thrown` models a thrown `std::runtime_error` with its message; `outOfFuel`
is the artefact of the fuel discipline, never reached at the fuel values
used below. -/
inductive PErr where
  | oob : PErr
  | thrown (msg : String) : PErr
  | outOfFuel : PErr
deriving DecidableEq, Repr

/-- Result of a parsing computation: either a value with the updated state, or
an abort together with the state at the abort point (so the `success` flag at
failure time stays observable). -/
def PRes (α : Type) : Type := Except (PErr × PState) (α × PState)

section
variable (tokens : List Lexer.Token)

/-- `Parser::at_end`: `current >= tokens.size()`. -/
def at_end (st : PState) : Bool :=
  tokens.length ≤ st.current

/-- `Parser::peek`: `tokens[current]`, with no bounds check in the source —
an out-of-range cursor is an explicit `oob` outcome here. -/
def peek (st : PState) : PRes Lexer.Token :=
  match tokens.get? st.current with
  | some t => .ok (t, st)
  | none => .error (.oob, st)

/-- `Parser::previous`: `tokens[current - 1]`; `current` is a `size_t`, so at
`current = 0` the index wraps around and the access is out of bounds. -/
def previous (st : PState) : PRes Lexer.Token :=
  if st.current = 0 then .error (.oob, st)
  else
    match tokens.get? (st.current - 1) with
    | some t => .ok (t, st)
    | none => .error (.oob, st)

/-- `Parser::next`: `tokens[current + 1]` whenever the cursor is not at the
end, else `peek()`.  (The guard does not prevent `current + 1` from being
`tokens.size()`.) -/
def next (st : PState) : PRes Lexer.Token :=
  if ¬ at_end tokens st then
    match tokens.get? (st.current + 1) with
    | some t => .ok (t, st)
    | none => .error (.oob, st)
  else peek tokens st

/-- `Parser::advance`: `if (!at_end()) current++; return previous();`. -/
def advance (st : PState) : PRes Lexer.Token :=
  let st1 := if at_end tokens st then st else { st with current := st.current + 1 }
  previous tokens st1

/-- `Parser::error`: set `success` to false and throw `msg`. -/
def error {α : Type} (msg : String) (st : PState) : PRes α :=
  .error (.thrown msg, { st with success := false })

/-- `Parser::match`: if the current token's value is one of `values`, advance
and return true, else return false.  (The C++ loops over `values` calling
`peek()` each round; `peek` is pure, so a single membership test is
equivalent.) -/
def matchTok (values : List String) (st : PState) : PRes Bool :=
  match peek tokens st with
  | .error e => .error e
  | .ok (t, st1) =>
    if values.contains t.value then
      match advance tokens st1 with
      | .error e => .error e
      | .ok (_, st2) => .ok (true, st2)
    else .ok (false, st1)

/-- `Parser::match_next`: membership test on `next()`'s value, no cursor
movement. -/
def match_next (values : List String) (st : PState) : PRes Bool :=
  match next tokens st with
  | .error e => .error e
  | .ok (t, st1) => .ok (values.contains t.value, st1)

/-- The pseudo-type-name list hard-coded in `Parser::match_key`. -/
def typeNames : List String :=
  ["uint8", "uint16", "uint32", "uint64", "int8", "int16", "int32", "int64",
   "float8", "float16", "float32", "float64", "bool", "string", "vector",
   "ptr", "ref"]

/-- `Parser::match_key`: an IDENTIFIER token always matches (and is consumed);
a KEYWORD token matches only if its value is in `typeNames`. -/
def match_key (st : PState) : PRes Bool :=
  match peek tokens st with
  | .error e => .error e
  | .ok (t, st1) =>
    if t.category = Lexer.Category.IDENTIFIER then
      match advance tokens st1 with
      | .error e => .error e
      | .ok (_, st2) => .ok (true, st2)
    else if t.category = Lexer.Category.KEYWORD ∧ typeNames.contains t.value then
      match advance tokens st1 with
      | .error e => .error e
      | .ok (_, st2) => .ok (true, st2)
    else .ok (false, st1)

/-- `Parser::consume`: `if (peek().value == type) return tokens[current++];
error(message);`. -/
def consume (type message : String) (st : PState) : PRes Lexer.Token :=
  match peek tokens st with
  | .error e => .error e
  | .ok (t, st1) =>
    if t.value = type then .ok (t, { st1 with current := st1.current + 1 })
    else error message st1

mutual

/-- The loop of `Parser::parse`: global statements until the token sequence is
exhausted (`while (!at_end()) statements.push_back(global_statement());`). -/
def parse : Nat → PState → PRes (List Node)
  | 0, st => .error (.outOfFuel, st)
  | fuel + 1, st =>
    if at_end tokens st then .ok ([], st)
    else
      match global_statement fuel st with
      | .error e => .error e
      | .ok (n, st1) =>
        match parse fuel st1 with
        | .error e => .error e
        | .ok (ns, st2) => .ok (n :: ns, st2)

/-- `Parser::global_statement`, outer dispatch:
`if (match({"void"}) || match_key()) { ... }` then the unconditional
`throw std::runtime_error("Unexpected global statement encountered.")`
(a direct throw, not `error()` — the success flag is not touched). -/
def global_statement : Nat → PState → PRes Node
  | 0, st => .error (.outOfFuel, st)
  | fuel + 1, st =>
    match matchTok tokens ["void"] st with
    | .error e => .error e
    | .ok (true, st1) => global_statement_tail fuel st1
    | .ok (false, st1) =>
      match match_key tokens st1 with
      | .error e => .error e
      | .ok (true, st2) => global_statement_tail fuel st2
      | .ok (false, st2) =>
        .error (.thrown "Unexpected global statement encountered.", st2)

/-- Body of `Parser::global_statement` once the leading type token matched:
requires IDENTIFIER then a following `(` to enter `function_declaration`;
every fall-through path reaches the direct throw. -/
def global_statement_tail : Nat → PState → PRes Node
  | 0, st => .error (.outOfFuel, st)
  | fuel + 1, st =>
    match peek tokens st with
    | .error e => .error e
    | .ok (t, st1) =>
      if t.category = Lexer.Category.IDENTIFIER then
        match match_next tokens ["("] st1 with
        | .error e => .error e
        | .ok (true, st2) => function_declaration fuel st2
        | .ok (false, st2) =>
          .error (.thrown "Unexpected global statement encountered.", st2)
      else .error (.thrown "Unexpected global statement encountered.", st1)

/-- `Parser::function_declaration`. -/
def function_declaration : Nat → PState → PRes Node
  | 0, st => .error (.outOfFuel, st)
  | fuel + 1, st =>
    match previous tokens st with
    | .error e => .error e
    | .ok (tType, st1) =>
      match peek tokens st1 with
      | .error e => .error e
      | .ok (t, st2) =>
        if t.category = Lexer.Category.IDENTIFIER then
          match advance tokens st2 with
          | .error e => .error e
          | .ok (tid, st3) =>
            match consume tokens "(" "Expected \x27(\x27" st3 with
            | .error e => .error e
            | .ok (_, st4) =>
              match fdecl_params fuel ([], []) st4 with
              | .error e => .error e
              | .ok ((tys, ids), st5) =>
                match consume tokens ")" "Expected \x27)\x27 after statement" st5 with
                | .error e => .error e
                | .ok (_, st6) =>
                  match statement fuel st6 with
                  | .error e => .error e
                  | .ok (body, st7) =>
                    .ok (.FunctionDeclaration tType.value tid.value tys ids body, st7)
        else error "Expected identifier" st2

/-- The parameter loop of `Parser::function_declaration`:
`while (peek().value != ")") { types.push(advance().value);
ids.push(advance().value); if (peek().value != ")") consume(","); }`. -/
def fdecl_params : Nat → List String × List String → PState →
    PRes (List String × List String)
  | 0, _, st => .error (.outOfFuel, st)
  | fuel + 1, (tys, ids), st =>
    match peek tokens st with
    | .error e => .error e
    | .ok (t, st1) =>
      if t.value ≠ ")" then
        match advance tokens st1 with
        | .error e => .error e
        | .ok (ty, st2) =>
          match advance tokens st2 with
          | .error e => .error e
          | .ok (tid, st3) =>
            match peek tokens st3 with
            | .error e => .error e
            | .ok (t2, st4) =>
              if t2.value ≠ ")" then
                match consume tokens "," "Expected \x27,\x27" st4 with
                | .error e => .error e
                | .ok (_, st5) =>
                  fdecl_params fuel (tys ++ [ty.value], ids ++ [tid.value]) st5
              else fdecl_params fuel (tys ++ [ty.value], ids ++ [tid.value]) st4
      else .ok ((tys, ids), st1)

/-- `Parser::statement`, first half: the keyword-dispatched alternatives and
the identifier-lookahead callbacks; the declaration/fallback half is
`statement_decl`. -/
def statement : Nat → PState → PRes Node
  | 0, st => .error (.outOfFuel, st)
  | fuel + 1, st =>
    match matchTok tokens ["\x7b"] st with
    | .error e => .error e
    | .ok (true, st1) => scope_declaration fuel st1
    | .ok (false, st1) =>
      match matchTok tokens ["if", "else"] st1 with
      | .error e => .error e
      | .ok (true, st2) => conditional_statement fuel st2
      | .ok (false, st2) =>
        match matchTok tokens ["while"] st2 with
        | .error e => .error e
        | .ok (true, st3) => while_loop_statement fuel st3
        | .ok (false, st3) =>
          match matchTok tokens ["return"] st3 with
          | .error e => .error e
          | .ok (true, st4) => return_statement fuel st4
          | .ok (false, st4) =>
            match peek tokens st4 with
            | .error e => .error e
            | .ok (t, st5) =>
              if t.category = Lexer.Category.IDENTIFIER then
                match match_next tokens ["=", "+=", "-=", "*=", "/=", "%="] st5 with
                | .error e => .error e
                | .ok (true, st6) => variable_assignment fuel st6
                | .ok (false, st6) =>
                  match match_next tokens ["("] st6 with
                  | .error e => .error e
                  | .ok (true, st7) => function_call fuel st7
                  | .ok (false, st7) => statement_decl fuel st7
              else statement_decl fuel st5

/-- `Parser::statement`, declarations block:
`if (match_key()) { if (peek().category == IDENTIFIER) {
if (match_next({"="})) return variable_declaration(); } }`.
Note that a true `match_key` consumes the type token even when the
declaration lookahead then fails. -/
def statement_decl : Nat → PState → PRes Node
  | 0, st => .error (.outOfFuel, st)
  | fuel + 1, st =>
    match match_key tokens st with
    | .error e => .error e
    | .ok (true, st1) =>
      match peek tokens st1 with
      | .error e => .error e
      | .ok (t, st2) =>
        if t.category = Lexer.Category.IDENTIFIER then
          match match_next tokens ["="] st2 with
          | .error e => .error e
          | .ok (true, st3) => variable_declaration fuel st3
          | .ok (false, st3) => statement_last fuel st3
        else statement_last fuel st2
    | .ok (false, st1) => statement_last fuel st1

/-- `Parser::statement`, last two alternatives: a bare `;` yields an
`EmptyStatement`; otherwise fall through to a bare expression. -/
def statement_last : Nat → PState → PRes Node
  | 0, st => .error (.outOfFuel, st)
  | fuel + 1, st =>
    match matchTok tokens [";"] st with
    | .error e => .error e
    | .ok (true, st1) => .ok (.EmptyStatement, st1)
    | .ok (false, st1) => expression fuel st1

/-- `Parser::variable_declaration` (entered with the type token already
consumed by `match_key`; `op` is `previous().value`). -/
def variable_declaration : Nat → PState → PRes Node
  | 0, st => .error (.outOfFuel, st)
  | fuel + 1, st =>
    match previous tokens st with
    | .error e => .error e
    | .ok (tOp, st1) =>
      match peek tokens st1 with
      | .error e => .error e
      | .ok (t, st2) =>
        if t.category = Lexer.Category.IDENTIFIER then
          match advance tokens st2 with
          | .error e => .error e
          | .ok (tid, st3) =>
            match consume tokens "=" "Expected \x27=\x27" st3 with
            | .error e => .error e
            | .ok (_, st4) =>
              match expression fuel st4 with
              | .error e => .error e
              | .ok (v, st5) =>
                match consume tokens ";" "Expected \x27;\x27 after statement" st5 with
                | .error e => .error e
                | .ok (_, st6) =>
                  .ok (.VariableDeclaration tOp.value tid.value v, st6)
        else error "Expected identifier" st2

/-- `Parser::variable_assignment`, including the compound-assignment
desugaring (`op=` becomes `id = id op expr`; an unrecognized compound
operator leaves the default-constructed empty op string). -/
def variable_assignment : Nat → PState → PRes Node
  | 0, st => .error (.outOfFuel, st)
  | fuel + 1, st =>
    match advance tokens st with
    | .error e => .error e
    | .ok (tid, st1) =>
      match peek tokens st1 with
      | .error e => .error e
      | .ok (t, st2) =>
        if t.category = Lexer.Category.OPERATOR then
          match advance tokens st2 with
          | .error e => .error e
          | .ok (tOp, st3) =>
            match expression fuel st3 with
            | .error e => .error e
            | .ok (v, st4) =>
              match consume tokens ";" "Expected \x27;\x27 after statement" st4 with
              | .error e => .error e
              | .ok (_, st5) =>
                if tOp.value = "=" then .ok (.VariableAssignment tid.value v, st5)
                else
                  let op2 :=
                    if tOp.value = "+=" then "+"
                    else if tOp.value = "-=" then "-"
                    else if tOp.value = "*=" then "*"
                    else if tOp.value = "/=" then "/"
                    else if tOp.value = "%=" then "%"
                    else ""
                  .ok (.VariableAssignment tid.value
                        (.BinaryOperation (.VariableCall tid.value) op2 v), st5)
        else error "Expected operator" st2

/-- `Parser::scope_declaration` (entered with `{` already consumed):
statements until `}`, then `advance()` past the `}`. -/
def scope_declaration : Nat → PState → PRes Node
  | 0, st => .error (.outOfFuel, st)
  | fuel + 1, st =>
    match scope_items fuel [] st with
    | .error e => .error e
    | .ok (items, st1) =>
      match advance tokens st1 with
      | .error e => .error e
      | .ok (_, st2) => .ok (.ScopeDeclaration items, st2)

/-- The loop of `Parser::scope_declaration`:
`while (peek().value != "\x7d") scope->ast.push_back(statement());`. -/
def scope_items : Nat → List Node → PState → PRes (List Node)
  | 0, _, st => .error (.outOfFuel, st)
  | fuel + 1, acc, st =>
    match peek tokens st with
    | .error e => .error e
    | .ok (t, st1) =>
      if t.value ≠ "\x7d" then
        match statement fuel st1 with
        | .error e => .error e
        | .ok (n, st2) => scope_items fuel (acc ++ [n]) st2
      else .ok (acc, st1)

/-- `Parser::conditional_statement` (entered with `if`/`else` consumed).
After the pass statement, the `else` test is an unchecked `peek()`. -/
def conditional_statement : Nat → PState → PRes Node
  | 0, st => .error (.outOfFuel, st)
  | fuel + 1, st =>
    match consume tokens "(" "Expected \x27(\x27" st with
    | .error e => .error e
    | .ok (_, st1) =>
      match expression fuel st1 with
      | .error e => .error e
      | .ok (cond, st2) =>
        match consume tokens ")" "Expected \x27)\x27" st2 with
        | .error e => .error e
        | .ok (_, st3) =>
          match statement fuel st3 with
          | .error e => .error e
          | .ok (pass, st4) =>
            match peek tokens st4 with
            | .error e => .error e
            | .ok (t, st5) =>
              if t.value = "else" then
                match advance tokens st5 with
                | .error e => .error e
                | .ok (_, st6) =>
                  match statement fuel st6 with
                  | .error e => .error e
                  | .ok (fail, st7) =>
                    .ok (.ConditionalStatement cond pass (some fail), st7)
              else .ok (.ConditionalStatement cond pass none, st5)

/-- `Parser::while_loop_statement` (entered with `while` consumed). -/
def while_loop_statement : Nat → PState → PRes Node
  | 0, st => .error (.outOfFuel, st)
  | fuel + 1, st =>
    match consume tokens "(" "Expected \x27(\x27" st with
    | .error e => .error e
    | .ok (_, st1) =>
      match expression fuel st1 with
      | .error e => .error e
      | .ok (cond, st2) =>
        match consume tokens ")" "Expected \x27)\x27" st2 with
        | .error e => .error e
        | .ok (_, st3) =>
          match statement fuel st3 with
          | .error e => .error e
          | .ok (body, st4) => .ok (.WhileLoopStatement cond body, st4)

/-- `Parser::return_statement` (entered with `return` consumed). -/
def return_statement : Nat → PState → PRes Node
  | 0, st => .error (.outOfFuel, st)
  | fuel + 1, st =>
    match peek tokens st with
    | .error e => .error e
    | .ok (t, st1) =>
      if t.value = ";" then
        match consume tokens ";" "Expected \x27;\x27 after statement" st1 with
        | .error e => .error e
        | .ok (_, st2) => .ok (.ReturnStatement .EmptyStatement, st2)
      else
        match expression fuel st1 with
        | .error e => .error e
        | .ok (v, st2) =>
          match consume tokens ";" "Expected \x27;\x27 after statement" st2 with
          | .error e => .error e
          | .ok (_, st3) => .ok (.ReturnStatement v, st3)

/-- `Parser::function_call` (statement form): identifier, `(` skipped by a
bare `advance()`, arguments, `)` skipped by a bare `advance()`, then a
mandatory `;`. -/
def function_call : Nat → PState → PRes Node
  | 0, st => .error (.outOfFuel, st)
  | fuel + 1, st =>
    match advance tokens st with
    | .error e => .error e
    | .ok (tid, st1) =>
      match advance tokens st1 with
      | .error e => .error e
      | .ok (_, st2) =>
        match call_args fuel [] st2 with
        | .error e => .error e
        | .ok (args, st3) =>
          match advance tokens st3 with
          | .error e => .error e
          | .ok (_, st4) =>
            match consume tokens ";" "Expected \x27;\x27 after statement" st4 with
            | .error e => .error e
            | .ok (_, st5) => .ok (.FunctionCall tid.value args, st5)

/-- The argument loop shared textually by `Parser::function_call` and the
call branch of `Parser::primary`:
`while (peek().value != ")") { args.push_back(expression());
if (peek().value != ")") consume(","); }`. -/
def call_args : Nat → List Node → PState → PRes (List Node)
  | 0, _, st => .error (.outOfFuel, st)
  | fuel + 1, acc, st =>
    match peek tokens st with
    | .error e => .error e
    | .ok (t, st1) =>
      if t.value ≠ ")" then
        match expression fuel st1 with
        | .error e => .error e
        | .ok (arg, st2) =>
          match peek tokens st2 with
          | .error e => .error e
          | .ok (t2, st3) =>
            if t2.value ≠ ")" then
              match consume tokens "," "Expected \x27,\x27" st3 with
              | .error e => .error e
              | .ok (_, st4) => call_args fuel (acc ++ [arg]) st4
            else call_args fuel (acc ++ [arg]) st3
      else .ok (acc, st1)

/-- `Parser::expression`: delegates to `equality`. -/
def expression : Nat → PState → PRes Node
  | 0, st => .error (.outOfFuel, st)
  | fuel + 1, st => equality fuel st

/-- `Parser::equality`: one `comparison`, then the `== !=` fold. -/
def equality : Nat → PState → PRes Node
  | 0, st => .error (.outOfFuel, st)
  | fuel + 1, st =>
    match comparison fuel st with
    | .error e => .error e
    | .ok (e, st1) => equality_loop fuel e st1

/-- The `while (match({"==", "!="}))` fold of `Parser::equality`. -/
def equality_loop : Nat → Node → PState → PRes Node
  | 0, _, st => .error (.outOfFuel, st)
  | fuel + 1, e, st =>
    match matchTok tokens ["==", "!="] st with
    | .error e' => .error e'
    | .ok (true, st1) =>
      match previous tokens st1 with
      | .error e' => .error e'
      | .ok (tOp, st2) =>
        match comparison fuel st2 with
        | .error e' => .error e'
        | .ok (r, st3) => equality_loop fuel (.BinaryOperation e tOp.value r) st3
    | .ok (false, st1) => .ok (e, st1)

/-- `Parser::comparison`: one `cast`, then the `< <= > >=` fold. -/
def comparison : Nat → PState → PRes Node
  | 0, st => .error (.outOfFuel, st)
  | fuel + 1, st =>
    match cast fuel st with
    | .error e => .error e
    | .ok (e, st1) => comparison_loop fuel e st1

/-- The `while (match({"<", "<=", ">", ">="}))` fold of `Parser::comparison`. -/
def comparison_loop : Nat → Node → PState → PRes Node
  | 0, _, st => .error (.outOfFuel, st)
  | fuel + 1, e, st =>
    match matchTok tokens ["<", "<=", ">", ">="] st with
    | .error e' => .error e'
    | .ok (true, st1) =>
      match previous tokens st1 with
      | .error e' => .error e'
      | .ok (tOp, st2) =>
        match cast fuel st2 with
        | .error e' => .error e'
        | .ok (r, st3) => comparison_loop fuel (.BinaryOperation e tOp.value r) st3
    | .ok (false, st1) => .ok (e, st1)

/-- `Parser::cast`: one `term`, then the `as` fold. -/
def cast : Nat → PState → PRes Node
  | 0, st => .error (.outOfFuel, st)
  | fuel + 1, st =>
    match term fuel st with
    | .error e => .error e
    | .ok (e, st1) => cast_loop fuel e st1

/-- The `while (match({"as"})) expr = CastOperation(expr, advance().value)`
fold of `Parser::cast`. -/
def cast_loop : Nat → Node → PState → PRes Node
  | 0, _, st => .error (.outOfFuel, st)
  | fuel + 1, e, st =>
    match matchTok tokens ["as"] st with
    | .error e' => .error e'
    | .ok (true, st1) =>
      match advance tokens st1 with
      | .error e' => .error e'
      | .ok (tTy, st2) => cast_loop fuel (.CastOperation e tTy.value) st2
    | .ok (false, st1) => .ok (e, st1)

/-- `Parser::term`: one `factor`, then the `+ -` fold. -/
def term : Nat → PState → PRes Node
  | 0, st => .error (.outOfFuel, st)
  | fuel + 1, st =>
    match factor fuel st with
    | .error e => .error e
    | .ok (e, st1) => term_loop fuel e st1

/-- The `while (match({"+", "-"}))` fold of `Parser::term`. -/
def term_loop : Nat → Node → PState → PRes Node
  | 0, _, st => .error (.outOfFuel, st)
  | fuel + 1, e, st =>
    match matchTok tokens ["+", "-"] st with
    | .error e' => .error e'
    | .ok (true, st1) =>
      match previous tokens st1 with
      | .error e' => .error e'
      | .ok (tOp, st2) =>
        match factor fuel st2 with
        | .error e' => .error e'
        | .ok (r, st3) => term_loop fuel (.BinaryOperation e tOp.value r) st3
    | .ok (false, st1) => .ok (e, st1)

/-- `Parser::factor`: one `remainder`, then the `* /` fold. -/
def factor : Nat → PState → PRes Node
  | 0, st => .error (.outOfFuel, st)
  | fuel + 1, st =>
    match remainder fuel st with
    | .error e => .error e
    | .ok (e, st1) => factor_loop fuel e st1

/-- The `while (match({"*", "/"}))` fold of `Parser::factor`. -/
def factor_loop : Nat → Node → PState → PRes Node
  | 0, _, st => .error (.outOfFuel, st)
  | fuel + 1, e, st =>
    match matchTok tokens ["*", "/"] st with
    | .error e' => .error e'
    | .ok (true, st1) =>
      match previous tokens st1 with
      | .error e' => .error e'
      | .ok (tOp, st2) =>
        match remainder fuel st2 with
        | .error e' => .error e'
        | .ok (r, st3) => factor_loop fuel (.BinaryOperation e tOp.value r) st3
    | .ok (false, st1) => .ok (e, st1)

/-- `Parser::remainder`: one `unary`, then the `%` fold. -/
def remainder : Nat → PState → PRes Node
  | 0, st => .error (.outOfFuel, st)
  | fuel + 1, st =>
    match unary fuel st with
    | .error e => .error e
    | .ok (e, st1) => remainder_loop fuel e st1

/-- The `while (match({"%"}))` fold of `Parser::remainder`. -/
def remainder_loop : Nat → Node → PState → PRes Node
  | 0, _, st => .error (.outOfFuel, st)
  | fuel + 1, e, st =>
    match matchTok tokens ["%"] st with
    | .error e' => .error e'
    | .ok (true, st1) =>
      match previous tokens st1 with
      | .error e' => .error e'
      | .ok (tOp, st2) =>
        match unary fuel st2 with
        | .error e' => .error e'
        | .ok (r, st3) => remainder_loop fuel (.BinaryOperation e tOp.value r) st3
    | .ok (false, st1) => .ok (e, st1)

/-- `Parser::unary`: prefix `- !`, right-recursive, else `primary`. -/
def unary : Nat → PState → PRes Node
  | 0, st => .error (.outOfFuel, st)
  | fuel + 1, st =>
    match matchTok tokens ["-", "!"] st with
    | .error e => .error e
    | .ok (true, st1) =>
      match previous tokens st1 with
      | .error e => .error e
      | .ok (tOp, st2) =>
        match unary fuel st2 with
        | .error e => .error e
        | .ok (r, st3) => .ok (.UnaryOperation tOp.value r, st3)
    | .ok (false, st1) => primary fuel st1

/-- `Parser::primary`: literals, call expression or variable reference for an
identifier, parenthesized grouping, otherwise `error`. -/
def primary : Nat → PState → PRes Node
  | 0, st => .error (.outOfFuel, st)
  | fuel + 1, st =>
    match peek tokens st with
    | .error e => .error e
    | .ok (t, st1) =>
      if t.category = Lexer.Category.INTEGER_LITERAL then
        match advance tokens st1 with
        | .error e => .error e
        | .ok (tv, st2) => .ok (.IntegerLiteral tv.value, st2)
      else if t.category = Lexer.Category.FLOAT_LITERAL then
        match advance tokens st1 with
        | .error e => .error e
        | .ok (tv, st2) => .ok (.FloatLiteral tv.value, st2)
      else if t.category = Lexer.Category.BOOLEAN_LITERAL then
        match advance tokens st1 with
        | .error e => .error e
        | .ok (tv, st2) => .ok (.BooleanLiteral (tv.value = "true"), st2)
      else if t.category = Lexer.Category.STRING_LITERAL then
        match advance tokens st1 with
        | .error e => .error e
        | .ok (tv, st2) => .ok (.StringLiteral tv.value, st2)
      else if t.category = Lexer.Category.IDENTIFIER then
        match next tokens st1 with
        | .error e => .error e
        | .ok (tn, st2) =>
          if tn.value = "(" then
            match advance tokens st2 with
            | .error e => .error e
            | .ok (tid, st3) =>
              match advance tokens st3 with
              | .error e => .error e
              | .ok (_, st4) =>
                match call_args fuel [] st4 with
                | .error e => .error e
                | .ok (args, st5) =>
                  match consume tokens ")" "Expected \x27)\x27" st5 with
                  | .error e => .error e
                  | .ok (_, st6) => .ok (.FunctionCall tid.value args, st6)
          else
            match advance tokens st2 with
            | .error e => .error e
            | .ok (tid, st3) => .ok (.VariableCall tid.value, st3)
      else
        match matchTok tokens ["("] st1 with
        | .error e => .error e
        | .ok (true, st2) =>
          match expression fuel st2 with
          | .error e => .error e
          | .ok (e, st3) =>
            match consume tokens ")" "Expected \x27)\x27 after expression" st3 with
            | .error e => .error e
            | .ok (_, st4) => .ok (e, st4)
        | .ok (false, st2) =>
          match peek tokens st2 with
          | .error e => .error e
          | .ok (t2, st3) =>
            error ("Unexpected token \x27" ++ t2.value ++ "\x27") st3

end

end

/-- Running the parser as the `Parser` constructor does: `success = true`,
cursor at 0, then `parse()`. -/
def run (tokens : List Lexer.Token) (fuel : Nat) : PRes (List Node) :=
  parse tokens fuel ⟨0, true⟩

end Parser

/-- Lex a source string and parse the resulting token sequence (the
`Source → Lexer → Parser` pipeline); `.error` is a lexical failure, an inner
`PRes` value is the parser outcome. -/
def run_pipeline (s : String) (fuel : Nat) :
    Except String (Parser.PRes (List Parser.Node)) :=
  (Lexer.lex s).map (fun ts => Parser.run ts fuel)

/-- Lex a source string and run `Parser::statement` on the token sequence
(the form a function-body statement is parsed in). -/
def run_statement (s : String) (fuel : Nat) :
    Except String (Parser.PRes Parser.Node) :=
  (Lexer.lex s).map (fun ts => Parser.statement ts fuel ⟨0, true⟩)

/-- Lex a source string and run `Parser::expression` on the token sequence. -/
def run_expression (s : String) (fuel : Nat) :
    Except String (Parser.PRes Parser.Node) :=
  (Lexer.lex s).map (fun ts => Parser.expression ts fuel ⟨0, true⟩)


/-- The token sequence of the unbalanced-brace program
`void f() \x7b if (true) \x7b return; \x7d` (13 tokens), as the lexer
produces it (`void` is an IDENTIFIER: it is not in the keyword list). -/
def unbalanced_program_tokens : List Lexer.Token :=
  [⟨.IDENTIFIER, "void"⟩, ⟨.IDENTIFIER, "f"⟩, ⟨.PUNCTUATOR, "("⟩,
   ⟨.PUNCTUATOR, ")"⟩, ⟨.PUNCTUATOR, "\x7b"⟩, ⟨.KEYWORD, "if"⟩,
   ⟨.PUNCTUATOR, "("⟩, ⟨.BOOLEAN_LITERAL, "true"⟩, ⟨.PUNCTUATOR, ")"⟩,
   ⟨.PUNCTUATOR, "\x7b"⟩, ⟨.KEYWORD, "return"⟩, ⟨.PUNCTUATOR, ";"⟩,
   ⟨.PUNCTUATOR, "\x7d"⟩]

/-- The token sequence of `x += 1;`, as the lexer produces it. -/
def compound_assign_tokens : List Lexer.Token :=
  [⟨.IDENTIFIER, "x"⟩, ⟨.OPERATOR, "+="⟩, ⟨.INTEGER_LITERAL, "1"⟩,
   ⟨.PUNCTUATOR, ";"⟩]

/-- Observer: the parse aborted by throwing `std::runtime_error` (either a
direct throw or via `Parser::error`). -/
def threw {α : Type} : Parser.PRes α → Bool
  | .error (.thrown _, _) => true
  | _ => false

/-- Observer: the parse aborted on an out-of-bounds token access. -/
def hit_oob {α : Type} : Parser.PRes α → Bool
  | .error (.oob, _) => true
  | _ => false

/-- Observer: the parser's `success` flag at the end of the pipeline
(`none` when lexing already failed). -/
def pipeline_success {α : Type} : Except String (Parser.PRes α) → Option Bool
  | .ok (.ok (_, st)) => some st.success
  | .ok (.error (_, st)) => some st.success
  | .error _ => none

/-- Observer: whether the parse aborted (`none` when lexing already
failed). -/
def pipeline_failed {α : Type} : Except String (Parser.PRes α) → Option Bool
  | .ok (.ok _) => some false
  | .ok (.error _) => some true
  | .error _ => none

namespace Parser

/-- A successful indexed lookup implies the index is within bounds. -/
theorem lt_length_of_getq {tokens : List Lexer.Token} {n : Nat}
    {t : Lexer.Token} (h : tokens.get? n = some t) : n < tokens.length := by
  rcases Nat.lt_or_ge n tokens.length with hlt | hge
  · exact hlt
  · rw [List.get?_eq_none.mpr hge] at h
    exact Option.noConfusion h

/-- `peek` on an in-bounds cursor returns the current token unchanged. -/
theorem peek_ok {tokens : List Lexer.Token} {st : PState} {t : Lexer.Token}
    (h : tokens.get? st.current = some t) : peek tokens st = .ok (t, st) := by
  unfold peek
  rw [h]

/-- `advance` on an in-bounds cursor returns the current token and moves the
cursor one step right. -/
theorem advance_ok {tokens : List Lexer.Token} {st : PState} {t : Lexer.Token}
    (h : tokens.get? st.current = some t) :
    advance tokens st = .ok (t, { st with current := st.current + 1 }) := by
  have hlt := lt_length_of_getq h
  unfold advance at_end previous
  simp [Nat.not_le.mpr hlt]
  rw [List.get?_eq_getElem?] at h
  rw [h]

/-- `consume` succeeds on the expected token value, moving the cursor one
step right. -/
theorem consume_ok {tokens : List Lexer.Token} {st : PState}
    {t : Lexer.Token} {ty msg : String} (h : tokens.get? st.current = some t)
    (hv : t.value = ty) :
    consume tokens ty msg st = .ok (t, { st with current := st.current + 1 }) := by
  unfold consume
  rw [peek_ok h]
  simp [hv]

end Parser

namespace Parser

/-- C8: for a compound assignment statement `id op= expr` with `op` one of
`+ - * / %`, `Parser::variable_assignment` produces
`VariableAssignment(id, BinaryOperation(op, VariableCall(id), expr))`, and for
plain `id = expr` it produces the direct `VariableAssignment(id, expr)` —
stated for any token sequence whose shape at the cursor is: any token `tid`,
then an OPERATOR token whose value is one of `= += -= *= /= %=`, then tokens
on which `expression` succeeds with value `v`, then a `;` token. -/
theorem variable_assignment_desugars_compound
    (tokens : List Lexer.Token) (fuel : Nat) (st : PState)
    (tid tOp tEnd : Lexer.Token) (v : Node) (st4 : PState)
    (h0 : tokens.get? st.current = some tid)
    (h1 : tokens.get? (st.current + 1) = some tOp)
    (hcat : tOp.category = Lexer.Category.OPERATOR)
    (hmem : tOp.value ∈ (["=", "+=", "-=", "*=", "/=", "%="] : List String))
    (hexpr : expression tokens fuel { st with current := st.current + 1 + 1 } =
      .ok (v, st4))
    (h3 : tokens.get? st4.current = some tEnd)
    (hsemi : tEnd.value = ";") :
    variable_assignment tokens (fuel + 1) st =
      .ok (if tOp.value = "=" then Node.VariableAssignment tid.value v
           else Node.VariableAssignment tid.value
             (Node.BinaryOperation (Node.VariableCall tid.value)
               (if tOp.value = "+=" then "+"
                else if tOp.value = "-=" then "-"
                else if tOp.value = "*=" then "*"
                else if tOp.value = "/=" then "/"
                else "%") v),
        { st4 with current := st4.current + 1 }) := by
  have hp1 : peek tokens { st with current := st.current + 1 } =
      .ok (tOp, { st with current := st.current + 1 }) :=
    peek_ok (by simpa using h1)
  have ha2 : advance tokens { st with current := st.current + 1 } =
      .ok (tOp, { st with current := st.current + 1 + 1 }) := by
    have h' := @advance_ok tokens { st with current := st.current + 1 } tOp
      (by simpa using h1)
    simpa using h'
  have hc : consume tokens ";" "Expected \x27;\x27 after statement" st4 =
      .ok (tEnd, { st4 with current := st4.current + 1 }) := consume_ok h3 hsemi
  unfold variable_assignment
  simp only [advance_ok h0, hp1, hcat, if_pos, ha2, hexpr, hc]
  simp only [List.mem_cons, List.not_mem_nil, or_false] at hmem
  rcases hmem with h | h | h | h | h | h <;> rw [h] <;> simp

/-- C8 witness: the desugaring theorem applied to the token sequence of
`x += 1;`, yielding `VariableAssignment(x, BinaryOperation(+, VariableCall(x),
IntegerLiteral(1)))`. -/
theorem variable_assignment_desugars_compound_witness :
    variable_assignment compound_assign_tokens 30 ⟨0, true⟩ =
      .ok (Node.VariableAssignment "x"
        (Node.BinaryOperation (Node.VariableCall "x") "+"
          (Node.IntegerLiteral "1")), ⟨4, true⟩) := by
  have h := variable_assignment_desugars_compound compound_assign_tokens 29
    ⟨0, true⟩ ⟨.IDENTIFIER, "x"⟩ ⟨.OPERATOR, "+="⟩ ⟨.PUNCTUATOR, ";"⟩
    (Node.IntegerLiteral "1") ⟨3, true⟩ rfl rfl rfl (by decide) rfl rfl rfl
  simpa using h

end Parser

/-- C1 counterexample: lexing the unterminated string `"ab` does not fail with
a lexical error — it succeeds, silently emitting a STRING_LITERAL token. -/
theorem lex_unterminated_string_emits_token :
    Lexer.lex "\x22ab" = .ok [⟨Lexer.Category.STRING_LITERAL, "ab"⟩] := by rfl

/-- C1 (amended): a string literal left unterminated at end of input is
accepted silently: the scanner stops at the end of input, emits a
STRING_LITERAL holding the characters read so far, and lexing succeeds —
producing the same token list as the properly terminated input. -/
theorem lex_unterminated_string_silently_accepted :
    Lexer.lex "\x22ab" = .ok [⟨Lexer.Category.STRING_LITERAL, "ab"⟩] ∧
    Lexer.lex "\x22ab\x22" = .ok [⟨Lexer.Category.STRING_LITERAL, "ab"⟩] :=
  ⟨by rfl, by rfl⟩

/-- C2 counterexample: on the unbalanced-brace program
`void f() \x7b if (true) \x7b return; \x7d` the parse does not end in a
reported (thrown) parse error — it ends in an out-of-bounds token access,
refuting the claimed bounds-respecting consume/peek failure. -/
theorem unbalanced_brace_not_reported_as_parse_error :
    Lexer.lex "void f() \x7b if (true) \x7b return; \x7d" =
      .ok unbalanced_program_tokens ∧
    threw (Parser.run unbalanced_program_tokens 30) = false ∧
    hit_oob (Parser.run unbalanced_program_tokens 30) = true :=
  ⟨by rfl, by rfl, by rfl⟩

/-- C2 (amended): parsing the unbalanced-brace program terminates (it does
not hang), but it ends with an out-of-bounds token access — after the inner
block is consumed, the cursor equals the token count (13) and the unchecked
`peek` in `conditional_statement` indexes one past the end; there is no
end-of-input sentinel and no bounds check in `peek`/`consume` (undefined
behaviour in the C++). -/
theorem unbalanced_brace_terminates_out_of_bounds :
    Lexer.lex "void f() \x7b if (true) \x7b return; \x7d" =
      .ok unbalanced_program_tokens ∧
    Parser.run unbalanced_program_tokens 30 = .error (.oob, ⟨13, true⟩) :=
  ⟨by rfl, by rfl⟩

/-- C3: contrary to the claim, `Parser::next` does go out of bounds: with the
cursor on the last token of a one-token sequence it reads `tokens[1]` (one
past the end), and with the cursor past the end it delegates to the equally
unchecked `peek` — it never produces an end-of-input sentinel. -/
theorem next_reads_out_of_bounds_on_last_token :
    Parser.next [⟨Lexer.Category.IDENTIFIER, "x"⟩] ⟨0, true⟩ =
      .error (.oob, ⟨0, true⟩) ∧
    Parser.next [⟨Lexer.Category.IDENTIFIER, "x"⟩] ⟨1, true⟩ =
      .error (.oob, ⟨1, true⟩) :=
  ⟨by rfl, by rfl⟩

/-- C4 counterexample: after the failing top-level parse of `x = 5;` the
success flag is still `true`, not `false` as claimed — `global_statement`
throws directly without going through `Parser::error`. -/
theorem top_level_assignment_success_flag_not_false :
    pipeline_failed (run_pipeline "x = 5;" 30) = some true ∧
    pipeline_success (run_pipeline "x = 5;" 30) = some true :=
  ⟨by rfl, by rfl⟩

/-- C4 (amended): the top-level program `x = 5;` fails to parse with the
unrecoverable direct throw "Unexpected global statement encountered.", but
the success flag remains `true` after the failure, because this throw
bypasses `Parser::error` (the only place the flag is cleared). -/
theorem top_level_assignment_fails_by_direct_throw :
    run_pipeline "x = 5;" 30 =
      .ok (.error (.thrown "Unexpected global statement encountered.",
        ⟨1, true⟩)) := by rfl

/-- C5: inside a function body, `let x = 5;` fails to parse — `match_key`
never accepts the keyword `let`, so the statement falls through to the
expression parser, which raises "Unexpected token 'let'" — while
`int32 x = 5;` parses to a `VariableDeclaration` whose type name is the
identifier `int32`. -/
theorem let_declaration_rejected_identifier_type_accepted :
    run_statement "let x = 5;" 30 =
      .ok (.error (.thrown "Unexpected token \x27let\x27", ⟨0, false⟩)) ∧
    Parser.match_key [⟨Lexer.Category.KEYWORD, "let"⟩] ⟨0, true⟩ =
      .ok (false, ⟨0, true⟩) ∧
    run_statement "int32 x = 5;" 30 =
      .ok (.ok (.VariableDeclaration "int32" "x" (.IntegerLiteral "5"),
        ⟨5, true⟩)) :=
  ⟨by rfl, by rfl, by rfl⟩

/-- C6: parsing the expression `1 + 2 * 3` (in statement position, i.e.
followed by its `;` — the expression cascade always inspects one token past
the expression) yields `BinaryOperation(+, 1, BinaryOperation(*, 2, 3))`:
multiplication binds tighter than addition, and the mis-associated
`BinaryOperation(*, BinaryOperation(+, 1, 2), 3)` is never produced. -/
theorem multiplication_binds_tighter_than_addition :
    run_expression "1 + 2 * 3;" 30 =
      .ok (.ok (.BinaryOperation (.IntegerLiteral "1") "+"
        (.BinaryOperation (.IntegerLiteral "2") "*" (.IntegerLiteral "3")),
        ⟨5, true⟩)) := by rfl

/-- C7: parsing the expression `a + b as int32` (in statement position,
followed by its `;`) yields
`CastOperation(BinaryOperation(+, VariableCall(a), VariableCall(b)), int32)`:
the `as` suffix wraps the whole term-level expression. -/
theorem cast_binds_whole_term_level_expression :
    run_expression "a + b as int32;" 30 =
      .ok (.ok (.CastOperation (.BinaryOperation (.VariableCall "a") "+"
        (.VariableCall "b")) "int32", ⟨5, true⟩)) := by rfl

/-- C9: `12` lexes to a single INTEGER_LITERAL, `12.5` to a single
FLOAT_LITERAL, and `12.` to an INTEGER_LITERAL `12` followed by a separate
PUNCTUATOR `.` — the dot is absorbed into the number only when a digit
immediately follows it. -/
theorem numeric_dot_boundary :
    Lexer.lex "12" = .ok [⟨Lexer.Category.INTEGER_LITERAL, "12"⟩] ∧
    Lexer.lex "12.5" = .ok [⟨Lexer.Category.FLOAT_LITERAL, "12.5"⟩] ∧
    Lexer.lex "12." = .ok [⟨Lexer.Category.INTEGER_LITERAL, "12"⟩,
      ⟨Lexer.Category.PUNCTUATOR, "."⟩] :=
  ⟨by rfl, by rfl, by rfl⟩

/-- C10: the empty input lexes to the empty token sequence, and parsing the
empty token sequence succeeds with an empty top-level AST and the success
flag `true`. -/
theorem empty_input_lexes_and_parses_empty :
    Lexer.lex "" = .ok [] ∧
    Parser.run [] 30 = .ok ([], ⟨0, true⟩) :=
  ⟨by rfl, by rfl⟩
